import Mathlib

/-!
Verification of the advisory lock client in solidlibs (src/os/lock.py).

The embedding models the Python module shallowly:

* Server responses are the dictionaries produced by evaluating the received
  bytes: association lists from string keys to Python values (RVal).
* The network is an oracle: every poll iteration i draws one ConnectOutcome
  from an environment (connection refused, a timeout from the socket layer,
  a broken pipe during send, or a reply whose parse either fails or yields
  a response dictionary).
* datetimes and timedeltas are integers in an abstract unit; now() at the
  deadline check of iteration i is the environment's clock at i.
* Exceptions are modelled with Except over a PyErr type mirroring the
  exception classes the module raises or handles.
* The unbounded while loops of lock() and unlock() take fuel; exhausting the
  fuel yields Except.ok Option.none, meaning the loop was still running.
-/

deriving instance DecidableEq for Except

namespace Safelock

/-- Python values occurring in safelock response dictionaries. -/
inductive RVal : Type where
  | bool (b : Bool)
  | int (n : Int)
  | str (s : String)
  deriving DecidableEq, Repr

/-- A parsed server response: the dictionary obtained from the received bytes. -/
abbrev Response := List (String × RVal)

/-- Python truthiness of a value. -/
def truthy : RVal → Bool
  | RVal.bool b => b
  | RVal.int n => n != 0
  | RVal.str s => !s.isEmpty

/-- Python equality between values: True equals 1, False equals 0, values of
unrelated types are unequal. -/
def rvalEq : RVal → RVal → Bool
  | RVal.bool a, RVal.bool b => a == b
  | RVal.bool a, RVal.int n => (if a then (1 : Int) else 0) == n
  | RVal.int n, RVal.bool a => n == (if a then (1 : Int) else 0)
  | RVal.int m, RVal.int n => m == n
  | RVal.str s, RVal.str t => s == t
  | _, _ => false

/-- Python str() of a value, as used by string formatting. -/
def rvalStr : RVal → String
  | RVal.bool true => "True"
  | RVal.bool false => "False"
  | RVal.int n => toString n
  | RVal.str s => s

/-- Dictionary membership and lookup: first matching key. -/
def dictLookup : Response → String → Option RVal
  | [], _ => Option.none
  | (k, v) :: rest, key => if k = key then some v else dictLookup rest key

/-- Exceptions raised or handled by the module. -/
inductive PyErr : Type where
  | lockFailed (msg : String)
  | lockTimeout (msg : String)
  | timeoutError (msg : String)
  | keyError (key : String)
  | valueError (msg : String)
  | nameError (missing : String)
  | exn (msg : String)
  deriving DecidableEq, Repr

/-- Python subscript access on a response dictionary: KeyError when missing. -/
def dictGet (resp : Response) (key : String) : Except PyErr RVal :=
  match dictLookup resp key with
  | some v => Except.ok v
  | Option.none => Except.error (PyErr.keyError key)

/-- Decide whether one character list is a prefix of another. -/
def listPrefix : List Char → List Char → Bool
  | [], _ => true
  | _ :: _, [] => false
  | a :: as, b :: bs => a == b && listPrefix as bs

/-- Decide whether one character list occurs inside another. -/
def listInside (needle : List Char) : List Char → Bool
  | [] => needle.isEmpty
  | c :: cs => listPrefix needle (c :: cs) || listInside needle cs

/-- Python substring test: needle in haystack. -/
def containsSubstr (needle haystack : String) : Bool :=
  listInside needle.toList haystack.toList

/-- Protocol key and action constants from lock.py. -/
def ACTION_KEY : String := "action"

/-- Key of the lock name field. -/
def LOCKNAME_KEY : String := "lockname"

/-- Key of the nonce field. -/
def NONCE_KEY : String := "nonce"

/-- Key of the pid field. -/
def PID_KEY : String := "pid"

/-- Key of the success flag field. -/
def OK_KEY : String := "ok"

/-- Key of the rejection reason field. -/
def MESSAGE_KEY : String := "message"

/-- Action tag of a lock request. -/
def LOCK_ACTION : String := "lock"

/-- Action tag of an unlock request. -/
def UNLOCK_ACTION : String := "unlock"

/-- Reason used when a rejection carries no message field. -/
def WHY_UNKNOWN : String := "safelock did not say why"

/-- Message of the LockFailed raised by connect_to_server when the connection
is refused and the server is required, with the default host and port filled
in. -/
def noServerMsg : String :=
  "Requires safelock package available on PyPI. No lock server at localhost:8674"

/-- Formatted REJECTED_LOCK_MESSAGE for a given lock name and reason. -/
def rejectedLockMsg (lockname reason : String) : String :=
  "safelock rejected \"" ++ lockname ++ "\" lock request: " ++ reason

/-- Formatted REJECTED_UNLOCK_MESSAGE for a given lock name and reason. -/
def rejectedUnlockMsg (lockname reason : String) : String :=
  "safelock rejected \"" ++ lockname ++ "\" unlock request: " ++ reason

/-- Rejection message built by try_to_lock from a not-ok response. -/
def rejected_lock_message (lockname : String) (resp : Response) : String :=
  match dictLookup resp MESSAGE_KEY with
  | some v => rejectedLockMsg lockname (rvalStr v)
  | Option.none => rejectedLockMsg lockname WHY_UNKNOWN

/-- Rejection message built by try_to_unlock from a not-ok response. -/
def rejected_unlock_message (lockname : String) (resp : Response) : String :=
  match dictLookup resp MESSAGE_KEY with
  | some v => rejectedUnlockMsg lockname (rvalStr v)
  | Option.none => rejectedUnlockMsg lockname WHY_UNKNOWN

/-- Test used by lock() and unlock() to recognize a fatal nonce mismatch:
the Python code checks whether the text Wrong nonce occurs in str(lf). -/
def wrongNonce (m : String) : Bool :=
  containsSubstr "Wrong nonce" m

/-- Outcome of the send and receive phase after a successful connect:
sendall raised BrokenPipeError, or recv returned bytes whose eval either
failed (none) or produced a response dictionary. -/
inductive SendRecv : Type where
  | brokenPipe
  | reply (parsed : Option Response)

/-- Outcome of one socket connect attempt: refused, a TimeoutError from the
socket layer, or connected with a given send and receive outcome. -/
inductive ConnectOutcome : Type where
  | refused
  | connectTimeout (msg : String)
  | connected (s : SendRecv)

/-- Network and time environment of one lock() or unlock() call: events i is
what the network does on poll iteration i, clock i is now() at the deadline
check of iteration i. -/
structure LockEnv : Type where
  events : Nat → ConnectOutcome
  clock : Nat → Int

/-- Timeout argument of lock(), unlock() and get_deadline: None, a timedelta,
a number of seconds (int or float), or a value of any other type. -/
inductive TimeoutArg : Type where
  | none
  | delta (d : Int)
  | secs (s : Int)
  | invalid (typename : String)

/-- Translation of get_deadline (lock.py lines 461 to 500): None gives no
deadline, a timedelta or a number of seconds is added to now(), and any other
type raises ValueError. -/
def get_deadline (timeout : TimeoutArg) (t0 : Int) : Except PyErr (Option Int) :=
  match timeout with
  | TimeoutArg.none => Except.ok Option.none
  | TimeoutArg.delta d => Except.ok (some (t0 + d))
  | TimeoutArg.secs s => Except.ok (some (t0 + s))
  | TimeoutArg.invalid typename =>
      Except.error (PyErr.valueError
        ("timeout must be one of (seconds, timedelta, None), not " ++ typename))

/-- Translation of connect_to_server (lock.py lines 502 to 522): on
ConnectionRefusedError, raise LockFailed when the server is required,
otherwise log a warning and report not connected; a TimeoutError from
connect propagates; otherwise connected, with the pending send and receive
outcome. -/
def connect_to_server (server_required : Bool) :
    ConnectOutcome → Except PyErr (Option SendRecv)
  | ConnectOutcome.refused =>
      if server_required then Except.error (PyErr.lockFailed noServerMsg)
      else Except.ok Option.none
  | ConnectOutcome.connectTimeout msg => Except.error (PyErr.timeoutError msg)
  | ConnectOutcome.connected s => Except.ok (some s)

/-- Truthiness of the short-circuit conjunction at lock.py lines 301 to 303:
response of OK_KEY and response of ACTION_KEY equal to LOCK_ACTION and
response of LOCKNAME_KEY equal to the requested lockname, with KeyError
where Python subscripting would raise it. -/
def tryLockCond (resp : Response) (lockname : String) : Except PyErr Bool :=
  match dictGet resp OK_KEY with
  | Except.error e => Except.error e
  | Except.ok okv =>
    if truthy okv then
      match dictGet resp ACTION_KEY with
      | Except.error e => Except.error e
      | Except.ok act =>
        if rvalEq act (RVal.str LOCK_ACTION) then
          match dictGet resp LOCKNAME_KEY with
          | Except.error e => Except.error e
          | Except.ok ln => Except.ok (rvalEq ln (RVal.str lockname))
        else Except.ok false
    else Except.ok false

/-- Translation of try_to_lock (lock.py lines 265 to 317). Returns the pair
of is_locked and nonce. Not connected returns the initial values; a broken
pipe raises LockFailed; an unparseable reply is logged and leaves is_locked
False; a granting reply yields True and the nonce field of the response; any
other reply raises LockFailed with the formatted rejection message. -/
def try_to_lock (lockname : String) (pid : Int) (server_required : Bool)
    (ev : ConnectOutcome) : Except PyErr (Bool × Option RVal) :=
  match connect_to_server server_required ev with
  | Except.error e => Except.error e
  | Except.ok Option.none => Except.ok (false, Option.none)
  | Except.ok (some SendRecv.brokenPipe) =>
      Except.error (PyErr.lockFailed "probably safelock server down")
  | Except.ok (some (SendRecv.reply Option.none)) => Except.ok (false, Option.none)
  | Except.ok (some (SendRecv.reply (some resp))) =>
    match tryLockCond resp lockname with
    | Except.error e => Except.error e
    | Except.ok true =>
      match dictGet resp NONCE_KEY with
      | Except.error e => Except.error e
      | Except.ok v => Except.ok (true, some v)
    | Except.ok false =>
        Except.error (PyErr.lockFailed (rejected_lock_message lockname resp))

/-- Deadline check at the bottom of the lock() loop (lock.py lines 253 to
257): when a deadline is set and now() is past it, raise LockTimeout. -/
def deadline_check (lockname : String) (deadline : Option Int) (t : Int) :
    Except PyErr Unit :=
  match deadline with
  | some d =>
      if d < t then
        Except.error (PyErr.lockTimeout ("lock timed out: " ++ lockname))
      else Except.ok ()
  | Option.none => Except.ok ()

/-- Deadline check at the bottom of the unlock() loop (lock.py lines 368 to
371): when a deadline is set and now() is past it, the code logs a warning
and then evaluates the name warning_msg, which is never assigned inside
unlock (it is a local of lock only), so Python raises NameError before any
LockTimeout can be constructed. -/
def unlock_deadline_check (deadline : Option Int) (t : Int) :
    Except PyErr Unit :=
  match deadline with
  | some d =>
      if d < t then Except.error (PyErr.nameError "warning_msg")
      else Except.ok ()
  | Option.none => Except.ok ()

/-- Retry loop of lock() (lock.py lines 230 to 263), with fuel. Arguments
after the environment: fuel, the iteration index, and last_warning. A caught
TimeoutError is logged; a caught LockFailed re-raises when its text contains
Wrong nonce and otherwise updates last_warning; any other exception is
logged and re-raised; a still-unlocked iteration runs the deadline check and
sleeps. Exhausted fuel yields ok none: the loop was still running. -/
def lock_loop (lockname : String) (pid : Int) (server_required : Bool)
    (deadline : Option Int) (env : LockEnv) :
    Nat → Nat → Option String → Except PyErr (Option (Bool × Option RVal × Int))
  | 0, _, _ => Except.ok Option.none
  | fuel + 1, i, last_warning =>
    match try_to_lock lockname pid server_required (env.events i) with
    | Except.ok (true, nonce) => Except.ok (some (true, nonce, pid))
    | Except.ok (false, _) =>
      match deadline_check lockname deadline (env.clock i) with
      | Except.error e => Except.error e
      | Except.ok _ =>
          lock_loop lockname pid server_required deadline env fuel (i + 1) last_warning
    | Except.error (PyErr.timeoutError _) =>
      match deadline_check lockname deadline (env.clock i) with
      | Except.error e => Except.error e
      | Except.ok _ =>
          lock_loop lockname pid server_required deadline env fuel (i + 1) last_warning
    | Except.error (PyErr.lockFailed m) =>
      if wrongNonce m then Except.error (PyErr.lockFailed m)
      else
        match deadline_check lockname deadline (env.clock i) with
        | Except.error e => Except.error e
        | Except.ok _ =>
            lock_loop lockname pid server_required deadline env fuel (i + 1) (some m)
    | Except.error e => Except.error e

/-- Translation of lock() (lock.py lines 146 to 263): compute the deadline,
then run the retry loop; on success return the triple of is_locked, nonce
and the calling process id. -/
def lock (lockname : String) (pid : Int) (timeout : TimeoutArg)
    (server_required : Bool) (t0 : Int) (env : LockEnv) (fuel : Nat) :
    Except PyErr (Option (Bool × Option RVal × Int)) :=
  match get_deadline timeout t0 with
  | Except.error e => Except.error e
  | Except.ok deadline =>
      lock_loop lockname pid server_required deadline env fuel 0 Option.none

/-- Truthiness of the short-circuit conjunction at lock.py line 418:
response of OK_KEY and response of ACTION_KEY equal to UNLOCK_ACTION and
response of NONCE_KEY equal to the nonce that was sent, with KeyError where
Python subscripting would raise it. The echoed lockname is not consulted. -/
def tryUnlockCond (resp : Response) (nonce : RVal) : Except PyErr Bool :=
  match dictGet resp OK_KEY with
  | Except.error e => Except.error e
  | Except.ok okv =>
    if truthy okv then
      match dictGet resp ACTION_KEY with
      | Except.error e => Except.error e
      | Except.ok act =>
        if rvalEq act (RVal.str UNLOCK_ACTION) then
          match dictGet resp NONCE_KEY with
          | Except.error e => Except.error e
          | Except.ok n => Except.ok (rvalEq n nonce)
        else Except.ok false
    else Except.ok false

/-- Translation of try_to_unlock (lock.py lines 380 to 431). Returns
is_locked, which starts True. Not connected returns the initial True; a
broken pipe raises LockFailed; an unparseable reply is logged and sets
is_locked to False, exactly as the source does at lines 412 to 416; a
confirming reply sets is_locked to False; any other reply raises LockFailed
with the formatted rejection message. -/
def try_to_unlock (lockname : String) (nonce : RVal) (pid : Int)
    (server_required : Bool) (ev : ConnectOutcome) : Except PyErr Bool :=
  match connect_to_server server_required ev with
  | Except.error e => Except.error e
  | Except.ok Option.none => Except.ok true
  | Except.ok (some SendRecv.brokenPipe) =>
      Except.error (PyErr.lockFailed "probably safelock server down")
  | Except.ok (some (SendRecv.reply Option.none)) => Except.ok false
  | Except.ok (some (SendRecv.reply (some resp))) =>
    match tryUnlockCond resp nonce with
    | Except.error e => Except.error e
    | Except.ok true => Except.ok false
    | Except.ok false =>
        Except.error (PyErr.lockFailed (rejected_unlock_message lockname resp))

/-- Retry loop of unlock() (lock.py lines 343 to 378), with fuel. The loop
runs while is_locked; its exception handling mirrors the lock() loop; a
still-locked iteration runs the unlock deadline check and sleeps. On exit
the function returns not is_locked, hence ok (some true). Exhausted fuel
yields ok none: the loop was still running. -/
def unlock_loop (lockname : String) (nonce : RVal) (pid : Int)
    (server_required : Bool) (deadline : Option Int) (env : LockEnv) :
    Nat → Nat → Option String → Except PyErr (Option Bool)
  | 0, _, _ => Except.ok Option.none
  | fuel + 1, i, last_warning =>
    match try_to_unlock lockname nonce pid server_required (env.events i) with
    | Except.ok false => Except.ok (some true)
    | Except.ok true =>
      match unlock_deadline_check deadline (env.clock i) with
      | Except.error e => Except.error e
      | Except.ok _ =>
          unlock_loop lockname nonce pid server_required deadline env fuel (i + 1) last_warning
    | Except.error (PyErr.timeoutError _) =>
      match unlock_deadline_check deadline (env.clock i) with
      | Except.error e => Except.error e
      | Except.ok _ =>
          unlock_loop lockname nonce pid server_required deadline env fuel (i + 1) last_warning
    | Except.error (PyErr.lockFailed m) =>
      if wrongNonce m then Except.error (PyErr.lockFailed m)
      else
        match unlock_deadline_check deadline (env.clock i) with
        | Except.error e => Except.error e
        | Except.ok _ =>
            unlock_loop lockname nonce pid server_required deadline env fuel (i + 1) (some m)
    | Except.error e => Except.error e

/-- Translation of unlock() (lock.py lines 319 to 378): compute the deadline,
then run the retry loop until the lock is no longer held. -/
def unlock (lockname : String) (nonce : RVal) (pid : Int) (timeout : TimeoutArg)
    (server_required : Bool) (t0 : Int) (env : LockEnv) (fuel : Nat) :
    Except PyErr (Option Bool) :=
  match get_deadline timeout t0 with
  | Except.error e => Except.error e
  | Except.ok deadline =>
      unlock_loop lockname nonce pid server_required deadline env fuel 0 Option.none

/-- Outcome of the block managed by the locked() context manager: a normal
value or an exception propagating out of it. -/
inductive BodyOutcome (α : Type) : Type where
  | val (a : α)
  | exn (e : PyErr)

/-- Observable outcome of one use of locked(): the overall result (ok none
when the acquisition loop was still running at fuel exhaustion), whether the
managed block ran, and how many times unlock was called. -/
structure LockedOutcome (α : Type) : Type where
  result : Except PyErr (Option α)
  bodyRan : Bool
  unlockCalls : Nat
  deriving Repr

/-- Translation of the control flow of locked() (lock.py lines 65 to 144)
with the outcomes of the called operations as arguments: the result of the
lock() call, the outcome of the managed block, and the result of the
unlock() call. An exception while acquiring is logged and re-raised without
running the block or touching unlock. Otherwise the block runs, and a
finally clause calls unlock exactly when is_locked is true; by Python
semantics an exception raised by unlock inside finally replaces whatever the
block did. -/
def locked {α : Type} (lockOutcome : Except PyErr (Option (Bool × Option RVal × Int)))
    (body : BodyOutcome α) (unlockOutcome : Except PyErr (Option Bool)) :
    LockedOutcome α :=
  match lockOutcome with
  | Except.error e => ⟨Except.error e, false, 0⟩
  | Except.ok Option.none => ⟨Except.ok Option.none, false, 0⟩
  | Except.ok (some (is_locked, _, _)) =>
    if is_locked then
      match unlockOutcome with
      | Except.error eu => ⟨Except.error eu, true, 1⟩
      | Except.ok _ =>
        match body with
        | BodyOutcome.val a => ⟨Except.ok (some a), true, 1⟩
        | BodyOutcome.exn e => ⟨Except.error e, true, 1⟩
    else
      match body with
      | BodyOutcome.val a => ⟨Except.ok (some a), true, 0⟩
      | BodyOutcome.exn e => ⟨Except.error e, true, 0⟩

/-- The locked() context manager applied to the lock() it actually calls. -/
def with_lock {α : Type} (lockname : String) (pid : Int) (timeout : TimeoutArg)
    (server_required : Bool) (t0 : Int) (env : LockEnv) (fuel : Nat)
    (body : BodyOutcome α) (unlockOutcome : Except PyErr (Option Bool)) :
    LockedOutcome α :=
  locked (lock lockname pid timeout server_required t0 env fuel) body unlockOutcome

/-- Classification of one attempt outcome as a non-fatal failure, exactly the
outcomes the lock() loop absorbs and retries: not locked, a TimeoutError, or
a LockFailed whose text does not contain Wrong nonce. -/
def nonFatal : Except PyErr (Bool × Option RVal) → Bool
  | Except.ok (true, _) => false
  | Except.ok (false, _) => true
  | Except.error (PyErr.timeoutError _) => true
  | Except.error (PyErr.lockFailed m) => !(wrongNonce m)
  | Except.error _ => false

/-- Environment in which every connection attempt is refused and the clock
stands still at 0. -/
def envRefused : LockEnv := ⟨fun _ => ConnectOutcome.refused, fun _ => 0⟩

/-- Environment in which every connection attempt is refused and every
deadline check sees time 10. -/
def envRefusedLate : LockEnv := ⟨fun _ => ConnectOutcome.refused, fun _ => 10⟩

/-- A granting response for lockname job-42 carrying nonce abc123. -/
def grantResp : Response :=
  [(OK_KEY, RVal.bool true), (ACTION_KEY, RVal.str LOCK_ACTION),
   (LOCKNAME_KEY, RVal.str "job-42"), (NONCE_KEY, RVal.str "abc123")]

/-- Environment in which the server grants every lock request for job-42. -/
def envGrant : LockEnv :=
  ⟨fun _ => ConnectOutcome.connected (SendRecv.reply (some grantResp)), fun _ => 0⟩

/-- A rejection of an unlock request for lock1 because the server is busy. -/
def busyResp : Response :=
  [(OK_KEY, RVal.bool false), (ACTION_KEY, RVal.str UNLOCK_ACTION),
   (LOCKNAME_KEY, RVal.str "lock1"), (MESSAGE_KEY, RVal.str "safelock busy")]

/-- Environment in which the server keeps rejecting unlock requests for lock1
and every deadline check sees time 5. -/
def envBusy : LockEnv :=
  ⟨fun _ => ConnectOutcome.connected (SendRecv.reply (some busyResp)), fun _ => 5⟩

/-- Environment in which every reply fails to parse. -/
def envMalformed : LockEnv :=
  ⟨fun _ => ConnectOutcome.connected (SendRecv.reply Option.none), fun _ => 0⟩

/-- A rejection of an unlock request for lock1 reporting a wrong nonce. -/
def wrongNonceResp : Response :=
  [(OK_KEY, RVal.bool false), (ACTION_KEY, RVal.str UNLOCK_ACTION),
   (LOCKNAME_KEY, RVal.str "lock1"), (MESSAGE_KEY, RVal.str "Wrong nonce")]

/-- Environment in which the server answers every unlock request for lock1
with a wrong nonce rejection. -/
def envWrongNonce : LockEnv :=
  ⟨fun _ => ConnectOutcome.connected (SendRecv.reply (some wrongNonceResp)), fun _ => 0⟩

/-- A rejection of a lock request for lock1 because it is already held. -/
def busyLockResp : Response :=
  [(OK_KEY, RVal.bool false), (ACTION_KEY, RVal.str LOCK_ACTION),
   (LOCKNAME_KEY, RVal.str "lock1"), (MESSAGE_KEY, RVal.str "already locked")]

/-- Environment in which the server keeps rejecting lock requests for lock1
under contention, with the clock at 0. -/
def envBusyLock : LockEnv :=
  ⟨fun _ => ConnectOutcome.connected (SendRecv.reply (some busyLockResp)), fun _ => 0⟩

/-- The no-server LockFailed message does not contain the text Wrong nonce. -/
theorem wrongNonce_noServerMsg : wrongNonce noServerMsg = false := rfl

/-- When every connection is refused and no deadline is set, the lock() loop
keeps retrying at every fuel bound, for a required and for an optional
server alike. -/
theorem lock_loop_refused (ln : String) (pid : Int) (sreq : Bool) (env : LockEnv)
    (hev : ∀ j, env.events j = ConnectOutcome.refused) :
    ∀ fuel i lw, lock_loop ln pid sreq Option.none env fuel i lw = Except.ok Option.none := by
  intro fuel
  induction fuel with
  | zero => intro i lw; rfl
  | succ fuel ih =>
    intro i lw
    cases sreq
    · simp only [lock_loop, hev i, try_to_lock, connect_to_server, Bool.false_eq_true,
        if_false, deadline_check]
      exact ih (i + 1) lw
    · simp only [lock_loop, hev i, try_to_lock, connect_to_server, if_true,
        wrongNonce_noServerMsg, Bool.false_eq_true, if_false, deadline_check]
      exact ih (i + 1) (some noServerMsg)

/-- Claim C1: the spec says that with server_required False and no server
listening, acquire returns without raising, degrading to running unlocked,
within one poll interval. The code does the opposite: try_to_lock reports
not locked, and the lock() loop retries forever, so with no timeout the call
never returns at any fuel bound, and with a timeout whose deadline has
passed it raises LockTimeout; it never returns a degraded unlocked result. -/
theorem lock_unavailable_not_required_loops_forever (ln : String) (pid : Int)
    (t0 : Int) (fuel : Nat) :
    lock ln pid TimeoutArg.none false t0 envRefused fuel = Except.ok Option.none ∧
    lock ln pid (TimeoutArg.secs 1) false 0 envRefusedLate (fuel + 1) =
      Except.error (PyErr.lockTimeout ("lock timed out: " ++ ln)) := by
  constructor
  · exact lock_loop_refused ln pid false envRefused (fun _ => rfl) fuel 0 Option.none
  · simp only [lock, get_deadline, lock_loop, envRefusedLate, try_to_lock,
      connect_to_server, Bool.false_eq_true, if_false, deadline_check]
    norm_num

/-- Claim C2, counterexample: with server_required True and every connection
refused, the call does not raise the no-lock-server LockFailed; after three
full poll iterations it is still retrying. -/
theorem lock_no_server_required_counterexample :
    lock "x" 42 TimeoutArg.none true 0 envRefused 3 = Except.ok Option.none ∧
    lock "x" 42 TimeoutArg.none true 0 envRefused 3 ≠
      Except.error (PyErr.lockFailed noServerMsg) := by
  refine ⟨rfl, ?_⟩
  intro h
  rw [show lock "x" 42 TimeoutArg.none true 0 envRefused 3 = Except.ok Option.none from rfl] at h
  simp at h

/-- Claim C2, amended: with server_required True and the connection refused,
connect_to_server raises the no-lock-server LockFailed inside try_to_lock
immediately, but lock() catches that LockFailed, logs it, and keeps
retrying: with no timeout it loops at every fuel bound, and with a deadline
that has passed it raises LockTimeout instead of the no-lock-server
error. -/
theorem lock_no_server_required_caught_and_retried :
    (∀ ln pid, try_to_lock ln pid true ConnectOutcome.refused =
        Except.error (PyErr.lockFailed noServerMsg)) ∧
    (∀ ln pid t0 fuel, lock ln pid TimeoutArg.none true t0 envRefused fuel =
        Except.ok Option.none) ∧
    (∀ ln pid fuel, lock ln pid (TimeoutArg.secs 1) true 0 envRefusedLate (fuel + 1) =
        Except.error (PyErr.lockTimeout ("lock timed out: " ++ ln))) := by
  refine ⟨fun ln pid => rfl, ?_, ?_⟩
  · intro ln pid t0 fuel
    exact lock_loop_refused ln pid true envRefused (fun _ => rfl) fuel 0 Option.none
  · intro ln pid fuel
    simp only [lock, get_deadline, lock_loop, envRefusedLate, try_to_lock,
      connect_to_server, if_true, wrongNonce_noServerMsg, Bool.false_eq_true,
      if_false, deadline_check]
    norm_num

/-- Dictionary access fails only with a KeyError naming the missing key. -/
theorem dictGet_error_shape (resp : Response) (key : String) (e : PyErr)
    (h : dictGet resp key = Except.error e) : e = PyErr.keyError key := by
  unfold dictGet at h
  cases hd : dictLookup resp key <;> rw [hd] at h
  · exact (Except.error.injEq _ _ ▸ h).symm
  · simp at h

/-- The lock response condition fails only with a KeyError. -/
theorem tryLockCond_error_shape (resp : Response) (ln : String) (e : PyErr)
    (h : tryLockCond resp ln = Except.error e) : ∃ k, e = PyErr.keyError k := by
  unfold tryLockCond at h
  split at h
  next e1 h1 =>
    injection h with h2
    exact ⟨OK_KEY, h2 ▸ dictGet_error_shape _ _ _ h1⟩
  next okv h1 =>
    split at h
    · split at h
      next e2 h2 =>
        injection h with h3
        exact ⟨ACTION_KEY, h3 ▸ dictGet_error_shape _ _ _ h2⟩
      next act h2 =>
        split at h
        · split at h
          next e3 h3 =>
            injection h with h4
            exact ⟨LOCKNAME_KEY, h4 ▸ dictGet_error_shape _ _ _ h3⟩
          next lnv h3 => exact absurd h (by simp)
        · exact absurd h (by simp)
    · exact absurd h (by simp)

/-- One lock attempt fails only with LockFailed, TimeoutError, or KeyError;
in particular it never raises LockTimeout itself. -/
theorem try_to_lock_error_shape (ln : String) (pid : Int) (sreq : Bool)
    (ev : ConnectOutcome) (e : PyErr)
    (h : try_to_lock ln pid sreq ev = Except.error e) :
    (∃ m, e = PyErr.lockFailed m) ∨ (∃ m, e = PyErr.timeoutError m) ∨
      (∃ k, e = PyErr.keyError k) := by
  cases ev with
  | refused =>
    cases sreq
    · simp [try_to_lock, connect_to_server] at h
    · simp only [try_to_lock, connect_to_server, if_true] at h
      injection h with h1
      exact Or.inl ⟨noServerMsg, h1.symm⟩
  | connectTimeout msg =>
    simp only [try_to_lock, connect_to_server] at h
    injection h with h1
    exact Or.inr (Or.inl ⟨msg, h1.symm⟩)
  | connected s =>
    cases s with
    | brokenPipe =>
      simp only [try_to_lock, connect_to_server] at h
      injection h with h1
      exact Or.inl ⟨"probably safelock server down", h1.symm⟩
    | reply pr =>
      cases pr with
      | none => simp [try_to_lock, connect_to_server] at h
      | some resp =>
        simp only [try_to_lock, connect_to_server] at h
        cases hc : tryLockCond resp ln <;> rw [hc] at h
        case error e1 =>
          injection h with h1
          obtain ⟨k, hk⟩ := tryLockCond_error_shape _ _ _ hc
          exact Or.inr (Or.inr ⟨k, h1 ▸ hk⟩)
        case ok b =>
          cases b
          · injection h with h1
            exact Or.inl ⟨rejected_lock_message ln resp, h1.symm⟩
          · cases hg : dictGet resp NONCE_KEY <;> rw [hg] at h
            case error e2 =>
              injection h with h1
              exact Or.inr (Or.inr ⟨NONCE_KEY, h1 ▸ dictGet_error_shape _ _ _ hg⟩)
            case ok v => simp at h

/-- One lock attempt reports success only off a connected reply that parsed
to a response granting this lockname, and the nonce it returns is the nonce
field of that response. -/
theorem try_to_lock_ok_true (ln : String) (pid : Int) (sreq : Bool)
    (ev : ConnectOutcome) (nonce : Option RVal)
    (h : try_to_lock ln pid sreq ev = Except.ok (true, nonce)) :
    ∃ resp v, ev = ConnectOutcome.connected (SendRecv.reply (some resp)) ∧
      tryLockCond resp ln = Except.ok true ∧
      dictGet resp NONCE_KEY = Except.ok v ∧ nonce = some v := by
  cases ev with
  | refused => cases sreq <;> simp [try_to_lock, connect_to_server] at h
  | connectTimeout msg => simp [try_to_lock, connect_to_server] at h
  | connected s =>
    cases s with
    | brokenPipe => simp [try_to_lock, connect_to_server] at h
    | reply pr =>
      cases pr with
      | none => simp [try_to_lock, connect_to_server] at h
      | some resp =>
        simp only [try_to_lock, connect_to_server] at h
        cases hc : tryLockCond resp ln <;> rw [hc] at h
        case error e1 => simp at h
        case ok b =>
          cases b
          · simp at h
          · cases hg : dictGet resp NONCE_KEY <;> rw [hg] at h
            case error e2 => simp at h
            case ok v =>
              refine ⟨resp, v, rfl, hc, hg, ?_⟩
              injection h with h1
              exact ((Prod.mk.injEq _ _ _ _ ▸ h1).2).symm

/-- When the retry loop of lock() returns a triple, the is_locked flag is
true, the pid is the ambient process id, and the nonce is the nonce field of
some granting reply the environment produced. -/
theorem lock_loop_success (ln : String) (pid : Int) (sreq : Bool)
    (dl : Option Int) (env : LockEnv) :
    ∀ fuel i lw b nonce p,
      lock_loop ln pid sreq dl env fuel i lw = Except.ok (some (b, nonce, p)) →
      b = true ∧ p = pid ∧
      ∃ j resp v, env.events j = ConnectOutcome.connected (SendRecv.reply (some resp)) ∧
        tryLockCond resp ln = Except.ok true ∧
        dictGet resp NONCE_KEY = Except.ok v ∧ nonce = some v := by
  intro fuel
  induction fuel with
  | zero => intro i lw b nonce p h; simp [lock_loop] at h
  | succ fuel ih =>
    intro i lw b nonce p h
    rw [lock_loop] at h
    split at h
    next nn htl =>
      injection h with h1
      injection h1 with h2
      obtain ⟨hb, hrest⟩ := Prod.mk.injEq _ _ _ _ ▸ h2
      obtain ⟨hn, hp⟩ := Prod.mk.injEq _ _ _ _ ▸ hrest
      obtain ⟨resp, v, hev, hcond, hget, hnv⟩ := try_to_lock_ok_true ln pid sreq _ nn htl
      exact ⟨hb.symm, hp.symm, i, resp, v, hev, hcond, hget, hn ▸ hnv⟩
    next nn htl =>
      split at h
      next e hdc => exact absurd h (by simp)
      next hdc => exact ih (i + 1) lw b nonce p h
    next msg htl =>
      split at h
      next e hdc => exact absurd h (by simp)
      next hdc => exact ih (i + 1) lw b nonce p h
    next m htl =>
      split at h
      · exact absurd h (by simp)
      · split at h
        next e hdc => exact absurd h (by simp)
        next hdc => exact ih (i + 1) (some m) b nonce p h
    next e h1 h2 h3 htl => exact absurd h (by simp)

/-- When lock() returns a triple, the is_locked flag is true, the pid is the
ambient process id, and the nonce comes from a granting reply. -/
theorem lock_ok_shape (ln : String) (pid : Int) (timeout : TimeoutArg) (sreq : Bool)
    (t0 : Int) (env : LockEnv) (fuel : Nat) (b : Bool) (nonce : Option RVal) (p : Int)
    (h : lock ln pid timeout sreq t0 env fuel = Except.ok (some (b, nonce, p))) :
    b = true ∧ p = pid ∧
    ∃ j resp v, env.events j = ConnectOutcome.connected (SendRecv.reply (some resp)) ∧
      tryLockCond resp ln = Except.ok true ∧
      dictGet resp NONCE_KEY = Except.ok v ∧ nonce = some v := by
  unfold lock at h
  split at h
  next e hg => exact absurd h (by simp)
  next dl hg => exact lock_loop_success ln pid sreq dl env fuel 0 Option.none b nonce p h

/-- With no deadline, the retry loop of lock() never raises LockTimeout. -/
theorem lock_loop_none_not_lockTimeout (ln : String) (pid : Int) (sreq : Bool)
    (env : LockEnv) :
    ∀ fuel i lw m, lock_loop ln pid sreq Option.none env fuel i lw ≠
      Except.error (PyErr.lockTimeout m) := by
  intro fuel
  induction fuel with
  | zero => intro i lw m h; simp [lock_loop] at h
  | succ fuel ih =>
    intro i lw m h
    rw [lock_loop] at h
    split at h
    next nn htl => exact absurd h (by simp)
    next nn htl =>
      rw [show deadline_check ln Option.none (env.clock i) = Except.ok () from rfl] at h
      exact ih (i + 1) lw m h
    next msg htl =>
      rw [show deadline_check ln Option.none (env.clock i) = Except.ok () from rfl] at h
      exact ih (i + 1) lw m h
    next mf htl =>
      split at h
      · injection h with h1
        exact PyErr.noConfusion h1
      · rw [show deadline_check ln Option.none (env.clock i) = Except.ok () from rfl] at h
        exact ih (i + 1) (some mf) m h
    next x e hne2 hne3 htl =>
      injection h with h4
      rcases try_to_lock_error_shape ln pid sreq _ e htl with ⟨m1, hm⟩ | ⟨m1, hm⟩ | ⟨k, hm⟩ <;>
        rw [hm] at h4 <;> exact absurd h4 (by simp)

/-- When an attempt fails non-fatally and the deadline has already passed,
the next deadline check of the lock() loop raises LockTimeout at once. -/
theorem lock_loop_timeout_step (ln : String) (pid : Int) (sreq : Bool) (d : Int)
    (env : LockEnv) (i : Nat) (lw : Option String) (fuel : Nat)
    (hnf : nonFatal (try_to_lock ln pid sreq (env.events i)) = true)
    (hd : d < env.clock i) :
    lock_loop ln pid sreq (some d) env (fuel + 1) i lw =
      Except.error (PyErr.lockTimeout ("lock timed out: " ++ ln)) := by
  rw [lock_loop]
  cases htl : try_to_lock ln pid sreq (env.events i) with
  | ok pr =>
    obtain ⟨isl, nn⟩ := pr
    cases isl
    · simp only [htl, deadline_check, if_pos hd]
    · rw [htl] at hnf; simp [nonFatal] at hnf
  | error e =>
    cases e with
    | lockFailed m =>
      rw [htl] at hnf
      simp only [nonFatal, Bool.not_eq_true'] at hnf
      simp only [htl, hnf, Bool.false_eq_true, if_false, deadline_check, if_pos hd]
    | lockTimeout m => rw [htl] at hnf; simp [nonFatal] at hnf
    | timeoutError m => simp only [htl, deadline_check, if_pos hd]
    | keyError k => rw [htl] at hnf; simp [nonFatal] at hnf
    | valueError m => rw [htl] at hnf; simp [nonFatal] at hnf
    | nameError m => rw [htl] at hnf; simp [nonFatal] at hnf
    | exn m => rw [htl] at hnf; simp [nonFatal] at hnf

/-- Claim C3: in the locked() helper applied to the lock() it calls, unlock
is called exactly once if and only if the acquire step returned ownership,
whatever the managed block does; and when acquire raises, the exception
propagates, the block never runs, and unlock is never called. -/
theorem with_lock_release_iff_acquired {α : Type} (ln : String) (pid : Int)
    (timeout : TimeoutArg) (sreq : Bool) (t0 : Int) (env : LockEnv) (fuel : Nat)
    (body : BodyOutcome α) (unlockRes : Except PyErr (Option Bool)) :
    ((with_lock ln pid timeout sreq t0 env fuel body unlockRes).unlockCalls = 1 ↔
      ∃ t, lock ln pid timeout sreq t0 env fuel = Except.ok (some t)) ∧
    (∀ e, lock ln pid timeout sreq t0 env fuel = Except.error e →
      (with_lock ln pid timeout sreq t0 env fuel body unlockRes).bodyRan = false ∧
      (with_lock ln pid timeout sreq t0 env fuel body unlockRes).unlockCalls = 0 ∧
      (with_lock ln pid timeout sreq t0 env fuel body unlockRes).result = Except.error e) := by
  unfold with_lock
  cases hl : lock ln pid timeout sreq t0 env fuel with
  | error e0 =>
    constructor
    · simp [locked]
    · intro e he
      injection he with h1
      subst h1
      exact ⟨rfl, rfl, rfl⟩
  | ok opt =>
    cases opt with
    | none =>
      constructor
      · simp [locked]
      · intro e he
        exact absurd he (by simp)
    | some t =>
      obtain ⟨b, nonce, p⟩ := t
      obtain ⟨hb, -, -⟩ := lock_ok_shape ln pid timeout sreq t0 env fuel b nonce p hl
      subst hb
      constructor
      · constructor
        · intro _
          exact ⟨(true, nonce, p), rfl⟩
        · intro _
          cases unlockRes with
          | error eu => rfl
          | ok u => cases body <;> rfl
      · intro e he
        exact absurd he (by simp)

/-- Claim C3 witness: a concrete use against a granting server, with a
normally completing block and a confirming release, calls unlock once. -/
theorem with_lock_release_iff_acquired_check :
    (with_lock "job-42" 42 TimeoutArg.none true 0 envGrant 1 (BodyOutcome.val (0 : Nat))
      (Except.ok (some true))).unlockCalls = 1 :=
  (with_lock_release_iff_acquired "job-42" 42 TimeoutArg.none true 0 envGrant 1
    (BodyOutcome.val (0 : Nat)) (Except.ok (some true))).1.mpr
    ⟨(true, some (RVal.str "abc123"), 42), rfl⟩

/-- Claim C6: with a deadline derived from a timeout in seconds or a
timedelta, a non-fatally failing attempt after the deadline has passed makes
lock() raise LockTimeout at once; with no timeout, lock() never raises
LockTimeout at any fuel bound. -/
theorem lock_timeout_exactly_when_deadline :
    (∀ (ln : String) (pid : Int) (sreq : Bool) (d : Int) (env : LockEnv) (i : Nat)
        (lw : Option String) (fuel : Nat),
        nonFatal (try_to_lock ln pid sreq (env.events i)) = true →
        d < env.clock i →
        lock_loop ln pid sreq (some d) env (fuel + 1) i lw =
          Except.error (PyErr.lockTimeout ("lock timed out: " ++ ln))) ∧
    (∀ (ln : String) (pid : Int) (sreq : Bool) (t0 s : Int) (env : LockEnv) (fuel : Nat),
        nonFatal (try_to_lock ln pid sreq (env.events 0)) = true →
        t0 + s < env.clock 0 →
        lock ln pid (TimeoutArg.secs s) sreq t0 env (fuel + 1) =
          Except.error (PyErr.lockTimeout ("lock timed out: " ++ ln)) ∧
        lock ln pid (TimeoutArg.delta s) sreq t0 env (fuel + 1) =
          Except.error (PyErr.lockTimeout ("lock timed out: " ++ ln))) ∧
    (∀ (ln : String) (pid : Int) (sreq : Bool) (t0 : Int) (env : LockEnv) (fuel : Nat)
        (m : String),
        lock ln pid TimeoutArg.none sreq t0 env fuel ≠
          Except.error (PyErr.lockTimeout m)) := by
  refine ⟨?_, ?_, ?_⟩
  · intro ln pid sreq d env i lw fuel hnf hd
    exact lock_loop_timeout_step ln pid sreq d env i lw fuel hnf hd
  · intro ln pid sreq t0 s env fuel hnf hd
    constructor <;>
      · simp only [lock, get_deadline]
        exact lock_loop_timeout_step ln pid sreq (t0 + s) env 0 Option.none fuel hnf hd
  · intro ln pid sreq t0 env fuel m
    simp only [lock, get_deadline]
    exact lock_loop_none_not_lockTimeout ln pid sreq env fuel 0 Option.none m

/-- Claim C6 witness: a refused connection with the clock past the deadline
raises LockTimeout in one iteration, for a seconds and for a timedelta
timeout alike. -/
theorem lock_timeout_exactly_when_deadline_check :
    lock "x" 42 (TimeoutArg.secs 1) true 0 envRefusedLate 1 =
      Except.error (PyErr.lockTimeout ("lock timed out: " ++ "x")) ∧
    lock "x" 42 (TimeoutArg.delta 1) true 0 envRefusedLate 1 =
      Except.error (PyErr.lockTimeout ("lock timed out: " ++ "x")) :=
  lock_timeout_exactly_when_deadline.2.1 "x" 42 true 0 1 envRefusedLate 0
    (by decide) (by decide)

/-- Claim C9: whenever lock() returns, the triple has is_locked true, the
nonce taken from the nonce field of a granting server reply, and the pid of
the calling process; a normal return never reports not locked. -/
theorem lock_returns_locked_granted_nonce (ln : String) (pid : Int)
    (timeout : TimeoutArg) (sreq : Bool) (t0 : Int) (env : LockEnv) (fuel : Nat)
    (b : Bool) (nonce : Option RVal) (p : Int)
    (h : lock ln pid timeout sreq t0 env fuel = Except.ok (some (b, nonce, p))) :
    b = true ∧ p = pid ∧
    ∃ j resp v, env.events j = ConnectOutcome.connected (SendRecv.reply (some resp)) ∧
      tryLockCond resp ln = Except.ok true ∧
      dictGet resp NONCE_KEY = Except.ok v ∧ nonce = some v :=
  lock_ok_shape ln pid timeout sreq t0 env fuel b nonce p h

/-- Claim C9 witness: the granting environment returns ownership whose nonce
is the granted abc123 and whose pid is the caller's. -/
theorem lock_returns_locked_granted_nonce_check :
    true = true ∧ (42 : Int) = 42 ∧
    ∃ j resp v, envGrant.events j = ConnectOutcome.connected (SendRecv.reply (some resp)) ∧
      tryLockCond resp "job-42" = Except.ok true ∧
      dictGet resp NONCE_KEY = Except.ok v ∧
      (some (RVal.str "abc123") : Option RVal) = some v :=
  lock_returns_locked_granted_nonce "job-42" 42 TimeoutArg.none true 0 envGrant 1 true
    (some (RVal.str "abc123")) 42 rfl

/-- Claim C4: the spec says an unparseable response counts as a failed
attempt on both sides and feeds the retry loop. That is true for a lock
attempt, which reports not locked and is retried, but false for an unlock
attempt: try_to_unlock sets is_locked to False on a parse failure, so the
unlock() loop exits at once and reports the release as successful. -/
theorem malformed_reply_fail_safe_asymmetry :
    (∀ (ln : String) (nonce : RVal) (pid : Int) (sreq : Bool),
        try_to_unlock ln nonce pid sreq
          (ConnectOutcome.connected (SendRecv.reply Option.none)) = Except.ok false) ∧
    (∀ (ln : String) (nonce : RVal) (pid : Int) (sreq : Bool) (t0 : Int) (fuel : Nat),
        unlock ln nonce pid TimeoutArg.none sreq t0 envMalformed (fuel + 1) =
          Except.ok (some true)) ∧
    (∀ (ln : String) (pid : Int) (sreq : Bool),
        try_to_lock ln pid sreq
          (ConnectOutcome.connected (SendRecv.reply Option.none)) =
          Except.ok (false, Option.none)) := by
  refine ⟨fun ln nonce pid sreq => rfl, ?_, fun ln pid sreq => rfl⟩
  intro ln nonce pid sreq t0 fuel
  rfl

/-- Claim C5: a LockFailed whose text contains Wrong nonce makes unlock()
re-raise it on the spot, at any fuel bound and whatever the timeout; a
LockFailed without that text, as produced by a contended lock request, is
absorbed and the lock() loop simply moves to the next attempt whenever the
deadline check passes. -/
theorem unlock_nonce_mismatch_fatal_contention_retried :
    (∀ (ln : String) (nonce : RVal) (pid : Int) (timeout : TimeoutArg) (sreq : Bool)
        (t0 : Int) (env : LockEnv) (fuel : Nat) (m : String) (dl : Option Int),
        get_deadline timeout t0 = Except.ok dl →
        try_to_unlock ln nonce pid sreq (env.events 0) =
          Except.error (PyErr.lockFailed m) →
        wrongNonce m = true →
        unlock ln nonce pid timeout sreq t0 env (fuel + 1) =
          Except.error (PyErr.lockFailed m)) ∧
    (∀ (ln : String) (pid : Int) (sreq : Bool) (d : Option Int) (env : LockEnv)
        (i : Nat) (lw : Option String) (fuel : Nat) (m : String),
        try_to_lock ln pid sreq (env.events i) = Except.error (PyErr.lockFailed m) →
        wrongNonce m = false →
        deadline_check ln d (env.clock i) = Except.ok () →
        lock_loop ln pid sreq d env (fuel + 1) i lw =
          lock_loop ln pid sreq d env fuel (i + 1) (some m)) := by
  constructor
  · intro ln nonce pid timeout sreq t0 env fuel m dl hg htu hw
    simp only [unlock, hg, unlock_loop, htu, hw, if_true]
  · intro ln pid sreq d env i lw fuel m htl hw hdc
    simp only [lock_loop, htl, hw, Bool.false_eq_true, if_false, hdc]

/-- Claim C5 witness: a wrong-nonce rejection aborts unlock() at once with
the formatted LockFailed, while a busy rejection of a lock request makes the
loop retry with the next attempt. -/
theorem unlock_nonce_mismatch_fatal_contention_retried_check :
    unlock "lock1" (RVal.str "abc") 7 TimeoutArg.none true 0 envWrongNonce 1 =
      Except.error (PyErr.lockFailed
        "safelock rejected \"lock1\" unlock request: Wrong nonce") ∧
    lock_loop "lock1" 7 true Option.none envBusyLock 1 0 Option.none =
      lock_loop "lock1" 7 true Option.none envBusyLock 0 1
        (some "safelock rejected \"lock1\" lock request: already locked") :=
  ⟨unlock_nonce_mismatch_fatal_contention_retried.1 "lock1" (RVal.str "abc") 7
      TimeoutArg.none true 0 envWrongNonce 0 _ Option.none rfl rfl (by decide),
   unlock_nonce_mismatch_fatal_contention_retried.2 "lock1" 7 true Option.none
      envBusyLock 0 Option.none 0 _ rfl (by decide) rfl⟩

/-- Claim C7: the spec says release raises LockTimeout when the deadline
passes without a confirmed release. The code logs the timeout warning but
then evaluates the unbound name warning_msg, so the call raises NameError
instead of LockTimeout: here the server keeps answering busy, the deadline
of 1 is passed at clock 5, and unlock() fails with the NameError. -/
theorem unlock_past_deadline_raises_nameError :
    unlock "lock1" (RVal.str "abc") 7 (TimeoutArg.secs 1) true 0 envBusy 2 =
      Except.error (PyErr.nameError "warning_msg") := rfl

/-- Claim C8, counterexample: a block that raises inside locked() followed
by a failing release does not let the block's exception propagate; the
release failure replaces it. -/
theorem locked_release_failure_masks_counterexample :
    ((locked (Except.ok (some (true, some (RVal.str "n1"), 7)))
        (BodyOutcome.exn (PyErr.exn "body failure") : BodyOutcome Nat)
        (Except.error (PyErr.lockFailed "release failure"))).result =
      Except.error (PyErr.lockFailed "release failure")) ∧
    ((locked (Except.ok (some (true, some (RVal.str "n1"), 7)))
        (BodyOutcome.exn (PyErr.exn "body failure") : BodyOutcome Nat)
        (Except.error (PyErr.lockFailed "release failure"))).result ≠
      Except.error (PyErr.exn "body failure")) :=
  ⟨rfl, by decide⟩

/-- Claim C8, amended: when the managed block raises and the release step
then fails, the release exception propagates out of the finally clause and
replaces the block's exception, which never reaches the caller; the block
did run and unlock was called once. -/
theorem locked_release_failure_replaces_body_exception {α : Type}
    (nonce : Option RVal) (p : Int) (e1 e2 : PyErr) :
    (locked (Except.ok (some (true, nonce, p))) (BodyOutcome.exn e1 : BodyOutcome α)
        (Except.error e2)).result = Except.error e2 ∧
    (locked (Except.ok (some (true, nonce, p))) (BodyOutcome.exn e1 : BodyOutcome α)
        (Except.error e2)).bodyRan = true ∧
    (locked (Except.ok (some (true, nonce, p))) (BodyOutcome.exn e1 : BodyOutcome α)
        (Except.error e2)).unlockCalls = 1 :=
  ⟨rfl, rfl, rfl⟩

/-- Response dictionary with the given ok flag, action, echoed lockname and
nonce, as a server would answer an unlock request. -/
def mkUnlockResp (okFlag : Bool) (act echoLn nn : String) : Response :=
  [(OK_KEY, RVal.bool okFlag), (ACTION_KEY, RVal.str act),
   (LOCKNAME_KEY, RVal.str echoLn), (NONCE_KEY, RVal.str nn)]

/-- Claim C10: one unlock attempt accepts a parsed response as a successful
release exactly when the ok flag is true, the action is unlock, and the
echoed nonce equals the nonce sent; the echoed lockname is never compared,
so a confirming response carrying any other lockname with the matching
nonce is accepted. -/
theorem try_to_unlock_success_condition (reqLn echoLn act nn n : String)
    (okFlag : Bool) (pid : Int) (sreq : Bool) :
    (try_to_unlock reqLn (RVal.str n) pid sreq
        (ConnectOutcome.connected (SendRecv.reply (some (mkUnlockResp okFlag act echoLn nn)))) =
        Except.ok false ↔ (okFlag = true ∧ act = UNLOCK_ACTION ∧ nn = n)) ∧
    try_to_unlock reqLn (RVal.str n) pid sreq
        (ConnectOutcome.connected
          (SendRecv.reply (some (mkUnlockResp true UNLOCK_ACTION echoLn n)))) =
      Except.ok false := by
  constructor
  · cases okFlag with
    | false =>
      simp [try_to_unlock, connect_to_server, tryUnlockCond, mkUnlockResp, dictGet,
        dictLookup, truthy, rvalEq, OK_KEY, ACTION_KEY, LOCKNAME_KEY, NONCE_KEY,
        UNLOCK_ACTION]
    | true =>
      by_cases hact : act = UNLOCK_ACTION
      · subst hact
        by_cases hnn : nn = n
        · subst hnn
          simp [try_to_unlock, connect_to_server, tryUnlockCond, mkUnlockResp, dictGet,
            dictLookup, truthy, rvalEq, OK_KEY, ACTION_KEY, LOCKNAME_KEY, NONCE_KEY,
            UNLOCK_ACTION]
        · simp [try_to_unlock, connect_to_server, tryUnlockCond, mkUnlockResp, dictGet,
            dictLookup, truthy, rvalEq, OK_KEY, ACTION_KEY, LOCKNAME_KEY, NONCE_KEY,
            UNLOCK_ACTION, hnn, beq_eq_false_iff_ne.mpr hnn]
      · simp only [UNLOCK_ACTION] at hact
        simp [try_to_unlock, connect_to_server, tryUnlockCond, mkUnlockResp, dictGet,
          dictLookup, truthy, rvalEq, OK_KEY, ACTION_KEY, LOCKNAME_KEY, NONCE_KEY,
          UNLOCK_ACTION, hact]
  · simp [try_to_unlock, connect_to_server, tryUnlockCond, mkUnlockResp, dictGet,
      dictLookup, truthy, rvalEq, OK_KEY, ACTION_KEY, LOCKNAME_KEY, NONCE_KEY,
      UNLOCK_ACTION]

end Safelock
